import Mathlib

/-!
Shallow embedding of the Forest7-15 bootstrap scripts.

The repository consists of four Python scripts:
  * `___stage1/start-chromadb-server.py`   (modelled as `Script1`)
  * `___stage1/chromadb-simple-server.py`  (modelled as `Script2`)
  * `start-local-chromadb-server.py`       (modelled as `Script3`)
  * `test-chromadb-simple.py`              (modelled as `Diag`)

Each script is embedded as a pure function from an "environment"
(which module loads succeed, what the blocking serve call does, the initial
process state) to a result recording the printed/logged lines, the serve calls
that were issued, the final process state (filesystem, environment
variables) and the process exit code.  Python exception propagation is
made explicit with an `Except` result: `KeyboardInterrupt` and
`SystemExit` derive from `BaseException` and are therefore NOT caught by
`except Exception`, which the embedding reproduces.
-/

/-- A filesystem path, as a list of segments. -/
abbrev FPath := List String

/-- A filesystem: the set of directories that exist, as a list of paths. -/
abbrev FS := List FPath

/-- `Path(p).mkdir(parents=True, exist_ok=True)`: if `p` already exists
nothing happens; otherwise the missing ancestors are created recursively
(pathlib recurses on the parent on `FileNotFoundError`) and then `p`
itself is created.  The empty path is the filesystem root, which always
exists. -/
def mkdir_p (fs : FS) : FPath → FS
  | [] => fs
  | a :: as =>
    if (a :: as) ∈ fs then fs
    else (a :: as) :: mkdir_p fs (a :: as).dropLast
termination_by p => p.length
decreasing_by simp [List.length_dropLast]

/-- A filesystem is well formed when every nonempty prefix of an existing
directory also exists. -/
def PrefixClosed (fs : FS) : Prop :=
  ∀ p ∈ fs, ∀ k : Nat, 0 < k → k ≤ p.length → p.take k ∈ fs

theorem mkdir_p_of_mem {fs : FS} {p : FPath} (h : p ∈ fs) : mkdir_p fs p = fs := by
  cases p with
  | nil => rw [mkdir_p]
  | cons a as => rw [mkdir_p, if_pos h]

theorem mem_mkdir_p_self {fs : FS} {p : FPath} (hne : p ≠ []) : p ∈ mkdir_p fs p := by
  cases p with
  | nil => exact absurd rfl hne
  | cons a as =>
    rw [mkdir_p]
    by_cases h : (a :: as) ∈ fs
    · rw [if_pos h]; exact h
    · rw [if_neg h]; exact List.mem_cons_self _ _

theorem mem_mkdir_p_of_mem {fs : FS} {q : FPath} (hq : q ∈ fs) :
    ∀ p : FPath, q ∈ mkdir_p fs p := by
  suffices H : ∀ (n : Nat) (p : FPath), p.length = n → q ∈ mkdir_p fs p by
    intro p; exact H p.length p rfl
  intro n
  induction n using Nat.strong_induction_on with
  | _ n ih =>
    intro p hn
    cases p with
    | nil => rw [mkdir_p]; exact hq
    | cons a as =>
      rw [mkdir_p]
      by_cases h : (a :: as) ∈ fs
      · rw [if_pos h]; exact hq
      · rw [if_neg h]
        refine List.mem_cons_of_mem _ ?_
        refine ih (a :: as).dropLast.length ?_ _ rfl
        subst hn
        simp [List.length_dropLast]

theorem take_mem_mkdir_p {fs : FS} (hfs : PrefixClosed fs) :
    ∀ (p : FPath) (k : Nat), 0 < k → k ≤ p.length → p.take k ∈ mkdir_p fs p := by
  suffices H : ∀ (n : Nat) (p : FPath), p.length = n →
      ∀ k : Nat, 0 < k → k ≤ p.length → p.take k ∈ mkdir_p fs p by
    intro p; exact H p.length p rfl
  intro n
  induction n using Nat.strong_induction_on with
  | _ n ih =>
    intro p hn k hk hkle
    cases p with
    | nil => simp at hkle; omega
    | cons a as =>
      rw [mkdir_p]
      by_cases h : (a :: as) ∈ fs
      · rw [if_pos h]
        exact hfs _ h k hk hkle
      · rw [if_neg h]
        by_cases hke : k = (a :: as).length
        · subst hke
          rw [List.take_length]
          exact List.mem_cons_self _ _
        · have hklt : k < (a :: as).length := lt_of_le_of_ne hkle hke
          refine List.mem_cons_of_mem _ ?_
          have hdl : (a :: as).dropLast.length = as.length := by
            simp [List.length_dropLast]
          have htake : (a :: as).take k = (a :: as).dropLast.take k := by
            rw [List.dropLast_eq_take, List.take_take]
            congr 1
            simp only [List.length_cons] at hklt ⊢
            omega
          rw [htake]
          refine ih (a :: as).dropLast.length ?_ _ rfl k hk ?_
          · subst hn; simp [List.length_dropLast]
          · rw [hdl]
            simp only [List.length_cons] at hklt
            omega

/-! ## Process model -/

/-- Process-wide mutable state touched by the scripts: the filesystem and
the two persistence environment variables. -/
structure PState where
  fs : FS
  chromaDbImpl : Option String
  chromaPersistDir : Option String
deriving DecidableEq, Repr

/-- Python exceptions that escape a modelled function.  `KeyboardInterrupt`
and `SystemExit` derive from `BaseException`, so `except Exception` does
not catch them; `ImportError` and generic exceptions derive from
`Exception`. -/
inductive PyExn where
  | importError (msg : String)
  | keyboardInterrupt
  | exn (msg : String)
  | systemExit (code : Nat)
deriving DecidableEq, Repr

/-- Which imports succeed in this process.  `chromadb` covers the package
and its `chromadb.config` submodule; `chromaFastapi` is
`chromadb.server.fastapi`; `fastapi` is the standalone FastAPI package;
`hasRunServer` is `hasattr(chromadb, 'run_server')`. -/
structure ImportEnv where
  chromadb : Bool
  chromadbVersion : String
  chromadbErrMsg : String
  hasRunServer : Bool
  chromaFastapi : Bool
  uvicorn : Bool
  fastapi : Bool
deriving DecidableEq, Repr

/-- What a blocking serve call (`chromadb.run_server` / `uvicorn.run`)
does when invoked: return normally, be interrupted by Ctrl+C, or raise a
generic exception carrying a message. -/
inductive ServeOutcome where
  | returns
  | keyboardInterrupt
  | raises (msg : String)
deriving DecidableEq, Repr

/-- The serve invocations a script can issue, with their arguments. -/
inductive ServeCall where
  | runServer (host : String) (port : Int)
  | uvicornApp (app : String) (host : String) (port : Int)
  | uvicornTarget (target : String) (host : String) (port : Int)
deriving DecidableEq, Repr

/-- Result of a modelled script-level function: final state, printed or
logged lines in order, serve calls issued in order, and either a normal
return value or an escaping exception.  Python functions with no `return`
yield `none`; `return False` yields `some false`. -/
structure StartResult where
  st : PState
  out : List String
  calls : List ServeCall
  res : Except PyExn (Option Bool)
deriving Repr

/-- Result of running a script `main`: final state, output, serve calls,
and the process exit code. -/
structure MainResult where
  st : PState
  out : List String
  calls : List ServeCall
  exit : Nat
deriving DecidableEq, Repr

/-- Split a character list on `/`, accumulating the current segment. -/
def splitSegsAux : List Char → List Char → List String
  | [], acc => [String.mk acc.reverse]
  | c :: cs, acc =>
    if c = '/' then String.mk acc.reverse :: splitSegsAux cs []
    else splitSegsAux cs (c :: acc)

/-- Split a data-directory string into path segments, dropping empty
segments (so `Path("a/b")` is `["a","b"]`). -/
def segs (s : String) : FPath := (splitSegsAux s.toList []).filter (fun x => x ≠ "")

/-- `s.upper()`. -/
def upperStr (s : String) : String := String.mk (s.toList.map Char.toUpper)

/-- Attribute names of the `logging` module that name a level, as accepted
by `getattr(logging, log_level.upper())`. -/
def loggingLevelNames : List String :=
  ["CRITICAL", "FATAL", "ERROR", "WARN", "WARNING", "INFO", "DEBUG", "NOTSET"]

/-- `getattr(logging, s.upper())` succeeds exactly on logging level names. -/
def validLogLevel (s : String) : Bool := loggingLevelNames.contains (upperStr s)

/-! ## Script1: `___stage1/start-chromadb-server.py` -/

/-- Parsed CLI configuration of `start-chromadb-server.py`. -/
structure Config where
  host : String
  port : Int
  dataDir : Option String
  logLevel : String
deriving DecidableEq, Repr

/-- The argparse defaults of `start-chromadb-server.py`. -/
def script1Defaults : Config :=
  { host := "0.0.0.0", port := 8000, dataDir := none, logLevel := "INFO" }

/-- The `choices` list of the `--log-level` flag. -/
def logLevelChoices : List String := ["DEBUG", "INFO", "WARNING", "ERROR"]

/-- The argparse loop of `start-chromadb-server.py`: each flag consumes a
value, `--port` must parse as an integer, `--log-level` must be one of the
four choices; anything else is an argparse error (`none`). -/
def script1ParseFrom : List String → Config → Option Config
  | [], c => some c
  | "--host" :: v :: rest, c => script1ParseFrom rest { c with host := v }
  | "--port" :: v :: rest, c =>
    match v.toInt? with
    | some n => script1ParseFrom rest { c with port := n }
    | none => none
  | "--data-dir" :: v :: rest, c => script1ParseFrom rest { c with dataDir := some v }
  | "--log-level" :: v :: rest, c =>
    if logLevelChoices.contains v then script1ParseFrom rest { c with logLevel := v }
    else none
  | _, _ => none

/-- `main`'s `parser.parse_args(argv)` for `start-chromadb-server.py`. -/
def script1ParseArgs (argv : List String) : Option Config :=
  script1ParseFrom argv script1Defaults

/-- `start_chromadb_server(host, port, data_dir, log_level)` of
`start-chromadb-server.py`.  `serve` is the behaviour of whichever
blocking serve call is reached. -/
def script1Start (env : ImportEnv) (serve : ServeOutcome) (cfg : Config)
    (st : PState) : StartResult :=
  if !validLogLevel cfg.logLevel then
    { st := st, out := [], calls := [], res := .error (.exn "AttributeError") }
  else if !env.chromadb then
    { st := st
      out := ["❌ ChromaDB not available: " ++ env.chromadbErrMsg,
              "💡 Install with: pip install chromadb"]
      calls := []
      res := .error (.systemExit 1) }
  else
    let banner := ["🚀 Starting ChromaDB server v" ++ env.chromadbVersion,
                   "📍 Host: " ++ cfg.host,
                   "🔌 Port: " ++ toString cfg.port,
                   "💾 Data directory: " ++ (cfg.dataDir.getD "default")]
    let st1 : PState :=
      match cfg.dataDir with
      | some d => { st with fs := mkdir_p st.fs (segs d) }
      | none => st
    let dirOut :=
      match cfg.dataDir with
      | some d => ["✅ Data directory created: " ++ d]
      | none => []
    if env.hasRunServer then
      let call := ServeCall.runServer cfg.host cfg.port
      match serve with
      | .returns =>
        { st := st1, out := banner ++ dirOut, calls := [call], res := .ok none }
      | .keyboardInterrupt =>
        { st := st1, out := banner ++ dirOut, calls := [call],
          res := .error .keyboardInterrupt }
      | .raises m =>
        { st := st1, out := banner ++ dirOut ++ ["❌ Server startup failed: " ++ m],
          calls := [call], res := .error (.systemExit 1) }
    else if !(env.chromaFastapi && env.uvicorn) then
      { st := st1
        out := banner ++ dirOut ++
          ["❌ ChromaDB not available: " ++ env.chromadbErrMsg,
           "💡 Install with: pip install chromadb"]
        calls := []
        res := .error (.systemExit 1) }
    else
      let st2 : PState :=
        match cfg.dataDir with
        | some d => { st1 with chromaDbImpl := some "duckdb+parquet",
                               chromaPersistDir := some d }
        | none => st1
      let startMsg := "🌐 Starting server on http://" ++ cfg.host ++ ":" ++ toString cfg.port
      let call := ServeCall.uvicornApp "chromadb.server.fastapi.app" cfg.host cfg.port
      match serve with
      | .returns =>
        { st := st2, out := banner ++ dirOut ++ [startMsg], calls := [call], res := .ok none }
      | .keyboardInterrupt =>
        { st := st2, out := banner ++ dirOut ++ [startMsg], calls := [call],
          res := .error .keyboardInterrupt }
      | .raises m =>
        { st := st2, out := banner ++ dirOut ++ [startMsg, "❌ Server startup failed: " ++ m],
          calls := [call], res := .error (.systemExit 1) }

/-- `main()` of `start-chromadb-server.py`, after argument parsing
succeeded with configuration `cfg`.  `except KeyboardInterrupt` prints the
stop message and falls through (exit 0); `except Exception` does not catch
`SystemExit`, so the exit code of `sys.exit(1)` propagates. -/
def script1Main (env : ImportEnv) (serve : ServeOutcome) (cfg : Config)
    (st : PState) : MainResult :=
  let hdr := ["🔧 ChromaDB Server for Forest Integration",
              String.mk (List.replicate 50 '=')]
  let r := script1Start env serve cfg st
  match r.res with
  | .ok _ => { st := r.st, out := hdr ++ r.out, calls := r.calls, exit := 0 }
  | .error .keyboardInterrupt =>
    { st := r.st, out := hdr ++ r.out ++ ["\n🛑 Server stopped by user"],
      calls := r.calls, exit := 0 }
  | .error (.systemExit n) =>
    { st := r.st, out := hdr ++ r.out, calls := r.calls, exit := n }
  | .error (.exn m) =>
    { st := r.st, out := hdr ++ r.out ++ ["\n❌ Unexpected error: " ++ m],
      calls := r.calls, exit := 1 }
  | .error (.importError m) =>
    { st := r.st, out := hdr ++ r.out ++ ["\n❌ Unexpected error: " ++ m],
      calls := r.calls, exit := 1 }

/-! ## Script2: `___stage1/chromadb-simple-server.py` -/

/-- Parsed CLI configuration of `chromadb-simple-server.py`.  Its parser
defines only `--host`, `--port` and `--data-dir`; there is no
`--log-level` flag. -/
structure SimpleConfig where
  host : String
  port : Int
  dataDir : Option String
deriving DecidableEq, Repr

/-- The argparse defaults of `chromadb-simple-server.py`. -/
def script2Defaults : SimpleConfig :=
  { host := "0.0.0.0", port := 8000, dataDir := none }

/-- The argparse loop of `chromadb-simple-server.py`: only `--host`,
`--port` (an integer) and `--data-dir` are recognised; any other token,
in particular `--log-level`, is an argparse error (`none`). -/
def script2ParseFrom : List String → SimpleConfig → Option SimpleConfig
  | [], c => some c
  | "--host" :: v :: rest, c => script2ParseFrom rest { c with host := v }
  | "--port" :: v :: rest, c =>
    match v.toInt? with
    | some n => script2ParseFrom rest { c with port := n }
    | none => none
  | "--data-dir" :: v :: rest, c => script2ParseFrom rest { c with dataDir := some v }
  | _, _ => none

/-- `main`'s `parser.parse_args(argv)` for `chromadb-simple-server.py`. -/
def script2ParseArgs (argv : List String) : Option SimpleConfig :=
  script2ParseFrom argv script2Defaults

/-- `str(Path(d))`: the normalised path string of a data directory. -/
def pathStr (d : String) : String := String.intercalate "/" (segs d)

/-- A chromadb collection as seen through the simple server: only `name`
and `id` are ever read. -/
structure Collection where
  name : String
  id : String
deriving DecidableEq, Repr

/-- The state of the chromadb client used by the simple server. -/
structure ClientState where
  collections : List Collection
deriving DecidableEq, Repr

/-- The client calls the simple server's endpoints can issue. -/
inductive ClientCall where
  | listCollections
  | createCollection (name : Option String)
  | getCollection (name : String)
deriving DecidableEq, Repr

/-- The response bodies the four endpoints produce: a nanosecond
heartbeat, a list of name/id objects, or a single name/id object. -/
inductive ApiResponse where
  | heartbeat (ns : Int)
  | collectionList (cs : List Collection)
  | collectionInfo (name : String) (id : String)
deriving DecidableEq, Repr

/-- `client.list_collections()`. -/
def clientList (cs : ClientState) : List Collection := cs.collections

/-- `client.create_collection(name=..., metadata=...)` of the underlying
library: raises when the name is absent or already taken, otherwise
appends a new collection with a library-chosen id. -/
def clientCreate (cs : ClientState) (name : Option String) (newId : String) :
    Except String (ClientState × Collection) :=
  match name with
  | none => .error "name must be a string"
  | some n =>
    if cs.collections.any (fun c => c.name = n) then
      .error ("Collection " ++ n ++ " already exists")
    else
      let c : Collection := { name := n, id := newId }
      .ok ({ collections := cs.collections ++ [c] }, c)

/-- `client.get_collection(name)` of the underlying library: raises when
no collection has that name. -/
def clientGet (cs : ClientState) (n : String) : Except String Collection :=
  match cs.collections.find? (fun c => c.name = n) with
  | some c => .ok c
  | none => .error ("Collection " ++ n ++ " does not exist")

/-- The `GET /api/v1/heartbeat` handler: replies with
`int(time.time() * 1e9)` computed from the local clock (`nowNs`); it
issues no client call.  The first component is the list of client calls
the handler makes. -/
def heartbeatHandler (nowNs : Int) : List ClientCall × Except String ApiResponse :=
  ([], .ok (.heartbeat nowNs))

/-- The `GET /api/v1/collections` handler: forwards to
`client.list_collections()` and maps each collection to its name/id. -/
def listCollectionsHandler (cs : ClientState) :
    List ClientCall × Except String ApiResponse :=
  ([.listCollections], .ok (.collectionList (clientList cs)))

/-- The `POST /api/v1/collections` handler: reads `name` (and `metadata`)
from the request body with `.get` and forwards to
`client.create_collection`; any error is the underlying call's own. -/
def createCollectionHandler (cs : ClientState) (newId : String)
    (reqName : Option String) :
    List ClientCall × Except String (ClientState × ApiResponse) :=
  ([.createCollection reqName],
   match clientCreate cs reqName newId with
   | .ok (cs2, c) => .ok (cs2, .collectionInfo c.name c.id)
   | .error e => .error e)

/-- The `GET /api/v1/collections/{collection_name}` handler: forwards to
`client.get_collection`; any error is the underlying call's own. -/
def getCollectionHandler (cs : ClientState) (n : String) :
    List ClientCall × Except String ApiResponse :=
  ([.getCollection n],
   match clientGet cs n with
   | .ok c => .ok (.collectionInfo c.name c.id)
   | .error e => .error e)

/-- The routes registered on the simple server's FastAPI app, in
registration order. -/
def simpleServerRoutes : List (String × String) :=
  [("GET", "/api/v1/heartbeat"),
   ("GET", "/api/v1/collections"),
   ("POST", "/api/v1/collections"),
   ("GET", "/api/v1/collections/\x7bcollection_name\x7d")]

/-- `start_simple_server(host, port, data_dir)` of
`chromadb-simple-server.py`.  Every handled failure path ends in
`return False` (`res = .ok (some false)`), never in `sys.exit`. -/
def script2Start (env : ImportEnv) (serve : ServeOutcome) (cfg : SimpleConfig)
    (st : PState) : StartResult :=
  if !env.chromadb then
    { st := st
      out := ["❌ ChromaDB not available", "💡 Install with: pip install chromadb"]
      calls := []
      res := .ok (some false) }
  else
    let vOut := ["🚀 ChromaDB v" ++ env.chromadbVersion]
    let st1 : PState :=
      match cfg.dataDir with
      | some d =>
        { fs := mkdir_p st.fs (segs d)
          chromaDbImpl := some "duckdb+parquet"
          chromaPersistDir := some (pathStr d) }
      | none => st
    let dirOut :=
      match cfg.dataDir with
      | some d => ["📁 Data directory: " ++ pathStr d]
      | none => []
    let startMsg :=
      "🌐 Starting server on http://" ++ cfg.host ++ ":" ++ toString cfg.port
    if !(env.fastapi && env.uvicorn) then
      { st := st1
        out := vOut ++ dirOut ++ [startMsg,
          "❌ FastAPI or uvicorn not available",
          "💡 Install with: pip install fastapi uvicorn"]
        calls := []
        res := .ok (some false) }
    else
      let configMsg := "✅ Simple FastAPI server configured"
      let call := ServeCall.uvicornApp "ChromaDB Simple Server" cfg.host cfg.port
      match serve with
      | .returns =>
        { st := st1, out := vOut ++ dirOut ++ [startMsg, configMsg],
          calls := [call], res := .ok none }
      | .keyboardInterrupt =>
        { st := st1, out := vOut ++ dirOut ++ [startMsg, configMsg],
          calls := [call], res := .error .keyboardInterrupt }
      | .raises m =>
        { st := st1
          out := vOut ++ dirOut ++ [startMsg, configMsg, "❌ Server error: " ++ m]
          calls := [call], res := .ok (some false) }

/-- `main()` of `chromadb-simple-server.py`, after argument parsing
succeeded with configuration `cfg`.  Only `KeyboardInterrupt` is handled;
the return value of `start_simple_server` is ignored, so every handled
failure still ends with exit code 0. -/
def script2Main (env : ImportEnv) (serve : ServeOutcome) (cfg : SimpleConfig)
    (st : PState) : MainResult :=
  let r := script2Start env serve cfg st
  match r.res with
  | .ok _ => { st := r.st, out := r.out, calls := r.calls, exit := 0 }
  | .error .keyboardInterrupt =>
    { st := r.st, out := r.out ++ ["\n🛑 Server stopped"], calls := r.calls, exit := 0 }
  | .error _ => { st := r.st, out := r.out, calls := r.calls, exit := 1 }

/-! ## Script3: `start-local-chromadb-server.py` -/

/-- `Path(p).mkdir(exist_ok=True)` WITHOUT `parents=True`: a no-op when
`p` exists; creates `p` when its parent exists (the root parent always
does); otherwise `FileNotFoundError` (`none`). -/
def mkdir1 (fs : FS) (p : FPath) : Option FS :=
  if p ∈ fs then some fs
  else if p.dropLast = [] ∨ p.dropLast ∈ fs then some (p :: fs)
  else none

/-- `install_chromadb()` of `start-local-chromadb-server.py`: returns
`True` when `import chromadb` succeeds or when the `pip install`
subprocess exits 0, `False` when the subprocess fails. -/
def installChromadb (env : ImportEnv) (pipOk : Bool) (pipErrMsg : String) :
    List String × Bool :=
  if env.chromadb then
    (["ChromaDB already installed: " ++ env.chromadbVersion], true)
  else if pipOk then
    (["ChromaDB not found, installing...", "ChromaDB installed successfully"], true)
  else
    (["ChromaDB not found, installing...",
      "Failed to install ChromaDB: " ++ pipErrMsg], false)

/-- `start_chromadb_server()` of `start-local-chromadb-server.py`.  It
takes no CLI arguments: the data directory is always `~/.forest-data`
with `.chromadb` below it (`home` models `os.path.expanduser("~")`).  It
never consults `hasattr(chromadb, 'run_server')`: it serves the
`chromadb.server.fastapi` app with uvicorn (`serve1`) and, when that
raises a generic exception, makes a second attempt with the import-string
target on localhost (`serve2`).  Every handled failure ends in
`return False`, never `sys.exit`. -/
def script3Start (env : ImportEnv) (serve1 serve2 : ServeOutcome)
    (home : FPath) (st : PState) : StartResult :=
  if !(env.chromadb && env.uvicorn) then
    { st := st
      out := ["ChromaDB import failed: " ++ env.chromadbErrMsg,
              "Try installing ChromaDB with: pip install chromadb"]
      calls := []
      res := .ok (some false) }
  else
    let forestDir := home ++ [".forest-data"]
    let chromaDir := forestDir ++ [".chromadb"]
    match mkdir1 st.fs forestDir with
    | none =>
      { st := st
        out := ["Failed to start ChromaDB server: FileNotFoundError"]
        calls := []
        res := .ok (some false) }
    | some fs1 =>
      match mkdir1 fs1 chromaDir with
      | none =>
        { st := { st with fs := fs1 }
          out := ["Failed to start ChromaDB server: FileNotFoundError"]
          calls := []
          res := .ok (some false) }
      | some fs2 =>
        let st1 : PState := { st with fs := fs2 }
        let pre :=
          ["ChromaDB data directory: " ++ String.intercalate "/" chromaDir,
           "ChromaDB client created with persistence",
           "Starting ChromaDB server on http://localhost:8000",
           "Press Ctrl+C to stop the server"]
        if !env.chromaFastapi then
          { st := st1
            out := pre ++
              ["Server startup failed: " ++ env.chromadbErrMsg,
               "Trying alternative server method...",
               "ChromaDB import failed: " ++ env.chromadbErrMsg,
               "Try installing ChromaDB with: pip install chromadb"]
            calls := []
            res := .ok (some false) }
        else
          let call1 := ServeCall.uvicornApp "chromadb.server.fastapi.app" "0.0.0.0" 8000
          match serve1 with
          | .returns =>
            { st := st1, out := pre, calls := [call1], res := .ok none }
          | .keyboardInterrupt =>
            { st := st1, out := pre, calls := [call1],
              res := .error .keyboardInterrupt }
          | .raises m =>
            let retryOut := pre ++
              ["Server startup failed: " ++ m, "Trying alternative server method..."]
            let call2 :=
              ServeCall.uvicornTarget "chromadb.server.fastapi:app" "localhost" 8000
            match serve2 with
            | .returns =>
              { st := st1, out := retryOut, calls := [call1, call2], res := .ok none }
            | .keyboardInterrupt =>
              { st := st1, out := retryOut, calls := [call1, call2],
                res := .error .keyboardInterrupt }
            | .raises m2 =>
              { st := st1
                out := retryOut ++ ["Failed to start ChromaDB server: " ++ m2]
                calls := [call1, call2]
                res := .ok (some false) }

/-- `main()` of `start-local-chromadb-server.py`: exits 1 when the
install helper fails; otherwise the launcher's `return False` is ignored
and only `KeyboardInterrupt` or an escaping exception changes the exit
status. -/
def script3Main (env : ImportEnv) (pipOk : Bool) (pipErrMsg : String)
    (serve1 serve2 : ServeOutcome) (home : FPath) (st : PState) : MainResult :=
  let hdr := ["🚀 Starting ChromaDB server for Forest MCP"]
  let inst := installChromadb env pipOk pipErrMsg
  if !inst.2 then
    { st := st, out := hdr ++ inst.1 ++ ["❌ Failed to install ChromaDB"],
      calls := [], exit := 1 }
  else
    let r := script3Start env serve1 serve2 home st
    match r.res with
    | .ok _ =>
      { st := r.st, out := hdr ++ inst.1 ++ r.out, calls := r.calls, exit := 0 }
    | .error .keyboardInterrupt =>
      { st := r.st, out := hdr ++ inst.1 ++ r.out ++ ["🛑 ChromaDB server stopped by user"],
        calls := r.calls, exit := 0 }
    | .error (.exn m) =>
      { st := r.st, out := hdr ++ inst.1 ++ r.out ++ ["❌ ChromaDB server failed: " ++ m],
        calls := r.calls, exit := 1 }
    | .error (.importError m) =>
      { st := r.st, out := hdr ++ inst.1 ++ r.out ++ ["❌ ChromaDB server failed: " ++ m],
        calls := r.calls, exit := 1 }
    | .error (.systemExit n) =>
      { st := r.st, out := hdr ++ inst.1 ++ r.out, calls := r.calls, exit := n }

/-! ## Diag: `test-chromadb-simple.py` -/

/-- Environment of the diagnostic script: which imports succeed, whether
`chromadb.Client()` and `client.list_collections()` succeed, and the
attribute list `dir(chromadb)`. -/
structure DiagEnv where
  chromadb : Bool
  chromadbVersion : String
  chromadbErrMsg : String
  chromaFastapi : Bool
  chromaFastapiErrMsg : String
  uvicorn : Bool
  uvicornErrMsg : String
  clientOk : Bool
  clientErrMsg : String
  listOk : Bool
  listErrMsg : String
  numCollections : Nat
  attrs : List String
deriving DecidableEq, Repr

/-- The attribute listing of `test_chromadb`: the non-underscore
attributes, the first 10 of them as lines, and a single count line for
the rest when more than 10 remain. -/
def attrLines (attrs : List String) : List String :=
  let shown := attrs.filter (fun a => !a.startsWith "_")
  (shown.take 10).map (fun a => "   - " ++ a) ++
    (if shown.length > 10 then
      ["   ... and " ++ toString (shown.length - 10) ++ " more"]
     else [])

/-- `test_chromadb()` of `test-chromadb-simple.py`: returns the logged
lines and the return value.  Only a failing `import chromadb` returns
`False`; failures of the optional modules or of the client are logged and
the function continues to its final `return True`. -/
def test_chromadb (e : DiagEnv) : List String × Bool :=
  if !e.chromadb then
    (["❌ ChromaDB not available: " ++ e.chromadbErrMsg], false)
  else
    (["✅ ChromaDB version: " ++ e.chromadbVersion] ++
     (if e.chromaFastapi then ["✅ FastAPI server module available"]
      else ["❌ FastAPI server not available: " ++ e.chromaFastapiErrMsg]) ++
     (if e.uvicorn then ["✅ Uvicorn available"]
      else ["❌ Uvicorn not available: " ++ e.uvicornErrMsg,
            "💡 Install with: pip install uvicorn"]) ++
     (if !e.clientOk then ["❌ Client creation failed: " ++ e.clientErrMsg]
      else if !e.listOk then
        ["✅ Basic ChromaDB client created",
         "❌ Client creation failed: " ++ e.listErrMsg]
      else
        ["✅ Basic ChromaDB client created",
         "✅ Collections listed: " ++ toString e.numCollections ++ " found"]) ++
     ["📦 ChromaDB module contents:"] ++ attrLines e.attrs, true)

/-! ## Concrete sample environments used by witnesses and counterexamples -/

/-- An environment where `import chromadb` fails. -/
def envMissing : ImportEnv :=
  { chromadb := false, chromadbVersion := "", chromadbErrMsg := "No module named chromadb",
    hasRunServer := false, chromaFastapi := false, uvicorn := false, fastapi := false }

/-- An environment where every import succeeds and `chromadb.run_server`
exists. -/
def envFull : ImportEnv :=
  { chromadb := true, chromadbVersion := "0.4.22", chromadbErrMsg := "",
    hasRunServer := true, chromaFastapi := true, uvicorn := true, fastapi := true }

/-- Like `envFull` but for an older library without `run_server`. -/
def envOld : ImportEnv := { envFull with hasRunServer := false }

/-- An initial process state whose filesystem holds the home directory. -/
def st0 : PState := { fs := [["home"]], chromaDbImpl := none, chromaPersistDir := none }

/-- `start-chromadb-server.py` configuration with `--data-dir home/data`. -/
def cfgWithDataDir : Config :=
  { host := "0.0.0.0", port := 8000, dataDir := some "home/data", logLevel := "INFO" }

/-- `chromadb-simple-server.py` configuration with `--data-dir home/data`. -/
def cfg2WithDataDir : SimpleConfig :=
  { host := "0.0.0.0", port := 8000, dataDir := some "home/data" }

/-- A diagnostic environment where chromadb imports but both optional
companion modules are missing. -/
def diagEnvNoOptional : DiagEnv :=
  { chromadb := true, chromadbVersion := "0.3.29", chromadbErrMsg := "",
    chromaFastapi := false,
    chromaFastapiErrMsg := "No module named chromadb.server.fastapi",
    uvicorn := false, uvicornErrMsg := "No module named uvicorn",
    clientOk := true, clientErrMsg := "", listOk := true, listErrMsg := "",
    numCollections := 0,
    attrs := ["Client", "PersistentClient", "__version__"] }

/-- A diagnostic environment with a failing client and 13 non-underscore
attributes. -/
def diagEnvManyAttrs : DiagEnv :=
  { chromadb := true, chromadbVersion := "0.4.22", chromadbErrMsg := "",
    chromaFastapi := true, chromaFastapiErrMsg := "",
    uvicorn := true, uvicornErrMsg := "",
    clientOk := false, clientErrMsg := "sqlite locked",
    listOk := true, listErrMsg := "", numCollections := 0,
    attrs := ["_private", "A01", "A02", "A03", "A04", "A05", "A06", "A07",
              "A08", "A09", "A10", "A11", "A12", "A13"] }

/-! ## Claim theorems -/

/-- C4: for every path X passed via `--data-dir`, invoking the bootstrap
(`start-chromadb-server.py` or `chromadb-simple-server.py`) creates
directory X (including missing parents) if it does not exist, and leaves
the filesystem unchanged if X already exists.  The final filesystem of
both launchers is `mkdir_p` of the initial one; `mkdir_p` is the identity
on an existing target, adds the target and all its missing ancestors
otherwise, and never removes an existing directory. -/
theorem C4_data_dir_creation (env : ImportEnv) (serve : ServeOutcome)
    (cfg : Config) (cfg2 : SimpleConfig) (st : PState) (d : String)
    (henv : env.chromadb = true) (hlog : validLogLevel cfg.logLevel = true)
    (hd1 : cfg.dataDir = some d) (hd2 : cfg2.dataDir = some d)
    (hne : segs d ≠ []) (hfs : PrefixClosed st.fs) :
    (script1Start env serve cfg st).st.fs = mkdir_p st.fs (segs d) ∧
    (script2Start env serve cfg2 st).st.fs = mkdir_p st.fs (segs d) ∧
    (segs d ∈ st.fs → mkdir_p st.fs (segs d) = st.fs) ∧
    segs d ∈ mkdir_p st.fs (segs d) ∧
    (∀ y ∈ st.fs, y ∈ mkdir_p st.fs (segs d)) ∧
    (∀ k : Nat, 0 < k → k ≤ (segs d).length →
      (segs d).take k ∈ mkdir_p st.fs (segs d)) := by
  refine ⟨?_, ?_, fun h => mkdir_p_of_mem h, mem_mkdir_p_self hne,
    fun y hy => mem_mkdir_p_of_mem hy _,
    fun k hk hkle => take_mem_mkdir_p hfs _ k hk hkle⟩
  · unfold script1Start
    rw [hlog, henv, hd1]
    cases env.hasRunServer <;> cases env.chromaFastapi <;> cases env.uvicorn <;>
      cases serve <;> simp
  · unfold script2Start
    rw [henv, hd2]
    cases env.fastapi <;> cases env.uvicorn <;> cases serve <;> simp

/-- C4 witness: concrete instantiation with `--data-dir home/data`. -/
theorem C4_data_dir_creation_witness :
    envFull.chromadb = true ∧
    validLogLevel cfgWithDataDir.logLevel = true ∧
    cfgWithDataDir.dataDir = some "home/data" ∧
    cfg2WithDataDir.dataDir = some "home/data" ∧
    segs "home/data" ≠ [] ∧
    PrefixClosed st0.fs ∧
    (script1Start envFull .returns cfgWithDataDir st0).st.fs
      = mkdir_p st0.fs (segs "home/data") := by
  have hfs : PrefixClosed st0.fs := by
    intro p hp k hk hkle
    simp only [st0, List.mem_singleton] at hp
    subst hp
    simp only [List.length_singleton] at hkle
    have hk1 : k = 1 := by omega
    subst hk1
    simp [st0]
  refine ⟨by decide, by decide, rfl, rfl, by decide, hfs, ?_⟩
  exact (C4_data_dir_creation envFull .returns cfgWithDataDir cfg2WithDataDir
    st0 "home/data" (by decide) (by decide) rfl rfl (by decide) hfs).1

/-- C5: when `--data-dir` is not given (`dataDir = none`), neither
`start-chromadb-server.py` nor `chromadb-simple-server.py` ever sets the
persistence environment variables `CHROMA_DB_IMPL` and
`CHROMA_PERSIST_DIRECTORY`: the fields carrying them in the final process
state are exactly the initial ones, in every environment and for every
serve outcome. -/
theorem C5_no_data_dir_no_env (env : ImportEnv) (serve : ServeOutcome)
    (cfg : Config) (cfg2 : SimpleConfig) (st : PState)
    (hd1 : cfg.dataDir = none) (hd2 : cfg2.dataDir = none) :
    (script1Main env serve cfg st).st.chromaDbImpl = st.chromaDbImpl ∧
    (script1Main env serve cfg st).st.chromaPersistDir = st.chromaPersistDir ∧
    (script2Main env serve cfg2 st).st.chromaDbImpl = st.chromaDbImpl ∧
    (script2Main env serve cfg2 st).st.chromaPersistDir = st.chromaPersistDir := by
  have h1 : (script1Start env serve cfg st).st.chromaDbImpl = st.chromaDbImpl ∧
      (script1Start env serve cfg st).st.chromaPersistDir = st.chromaPersistDir := by
    unfold script1Start
    rw [hd1]
    cases hv : validLogLevel cfg.logLevel <;>
      cases hc : env.chromadb <;>
      cases hr : env.hasRunServer <;>
      cases hf : env.chromaFastapi <;>
      cases hu : env.uvicorn <;>
      cases serve <;> simp
  have h2 : (script2Start env serve cfg2 st).st.chromaDbImpl = st.chromaDbImpl ∧
      (script2Start env serve cfg2 st).st.chromaPersistDir = st.chromaPersistDir := by
    unfold script2Start
    rw [hd2]
    cases hc : env.chromadb <;>
      cases hf : env.fastapi <;>
      cases hu : env.uvicorn <;>
      cases serve <;> simp
  have e1 : (script1Main env serve cfg st).st = (script1Start env serve cfg st).st := by
    rcases h : script1Start env serve cfg st with ⟨st1, out1, calls1, res1⟩
    unfold script1Main
    rw [h]
    cases res1 with
    | ok v => rfl
    | error e => cases e <;> rfl
  have e2 : (script2Main env serve cfg2 st).st = (script2Start env serve cfg2 st).st := by
    rcases h : script2Start env serve cfg2 st with ⟨st1, out1, calls1, res1⟩
    unfold script2Main
    rw [h]
    cases res1 with
    | ok v => rfl
    | error e => cases e <;> rfl
  rw [e1, e2]
  exact ⟨h1.1, h1.2, h2.1, h2.2⟩

/-- C5 witness: concrete invocation of both launchers with the default
configuration (no `--data-dir`), from a state with no variables set. -/
theorem C5_no_data_dir_no_env_witness :
    script1Defaults.dataDir = none ∧ script2Defaults.dataDir = none ∧
    (script2Main envFull .returns script2Defaults st0).st.chromaDbImpl
      = st0.chromaDbImpl := by
  refine ⟨rfl, rfl, ?_⟩
  exact (C5_no_data_dir_no_env envFull .returns script1Defaults script2Defaults
    st0 rfl rfl).2.2.1

/-- C1 counterexample: with `import chromadb` failing,
`chromadb-simple-server.py` prints the guidance message but its launcher
merely returns `False`, which `main` ignores — the process terminates
with exit code 0, not 1 as claimed. -/
theorem C1_counterexample :
    (script2Main envMissing .returns script2Defaults st0).exit = 0 ∧
    "💡 Install with: pip install chromadb"
      ∈ (script2Main envMissing .returns script2Defaults st0).out := by
  constructor
  · rfl
  · simp [script2Main, script2Start, envMissing, script2Defaults, st0]

/-- C1 (amended): when `import chromadb` fails,
`start-chromadb-server.py` prints guidance containing the package name
and exits 1; `chromadb-simple-server.py` prints the guidance but exits 0;
`start-local-chromadb-server.py` exits 0 with guidance when the automatic
`pip install` reports success, and exits 1 when the install fails. -/
theorem C1_amended (env : ImportEnv) (serve serve2 : ServeOutcome) (cfg : Config)
    (cfg2 : SimpleConfig) (st : PState) (home : FPath) (pipMsg : String)
    (hc : env.chromadb = false) (hlog : validLogLevel cfg.logLevel = true) :
    (script1Main env serve cfg st).exit = 1 ∧
    "💡 Install with: pip install chromadb" ∈ (script1Main env serve cfg st).out ∧
    (script2Main env serve cfg2 st).exit = 0 ∧
    "💡 Install with: pip install chromadb" ∈ (script2Main env serve cfg2 st).out ∧
    (script3Main env true pipMsg serve serve2 home st).exit = 0 ∧
    "Try installing ChromaDB with: pip install chromadb"
      ∈ (script3Main env true pipMsg serve serve2 home st).out ∧
    (script3Main env false pipMsg serve serve2 home st).exit = 1 := by
  refine ⟨?_, ?_, ?_, ?_, ?_, ?_, ?_⟩ <;>
    simp [script1Main, script1Start, script2Main, script2Start,
      script3Main, script3Start, installChromadb, hc, hlog]

/-- C1 witness: concrete missing-dependency invocation. -/
theorem C1_amended_witness :
    envMissing.chromadb = false ∧
    validLogLevel script1Defaults.logLevel = true ∧
    (script1Main envMissing .returns script1Defaults st0).exit = 1 := by
  refine ⟨rfl, by decide, ?_⟩
  exact (C1_amended envMissing .returns .returns script1Defaults script2Defaults
    st0 ["home"] "pip failed" rfl (by decide)).1

/-- `mkdir1` succeeds on `p ++ [a]` whenever the parent `p` is the root or
already exists, and the result contains the new directory and everything
that existed before. -/
theorem mkdir1_concat_some {fs : FS} {p : FPath} (a : String)
    (h : p = [] ∨ p ∈ fs) :
    ∃ fs2, mkdir1 fs (p ++ [a]) = some fs2 ∧ (p ++ [a]) ∈ fs2 ∧ ∀ q ∈ fs, q ∈ fs2 := by
  unfold mkdir1
  by_cases hmem : (p ++ [a]) ∈ fs
  · exact ⟨fs, by rw [if_pos hmem], hmem, fun q hq => hq⟩
  · have hdl : (p ++ [a]).dropLast = p := by
      simp
    refine ⟨(p ++ [a]) :: fs, ?_, List.mem_cons_self _ _,
      fun q hq => List.mem_cons_of_mem _ hq⟩
    rw [if_neg hmem, hdl, if_pos h]

/-- C2: for every script that serves, a `KeyboardInterrupt` raised while
a reached serve call blocks propagates past every `except Exception` and
`except ImportError` handler to the top-level `except KeyboardInterrupt`
in `main`, which prints its stop message, and the process exits 0.  For
`start-local-chromadb-server.py` the interrupt may hit either the first
serve call or the retry serve call. -/
theorem C2_keyboard_interrupt_clean_exit
    (env : ImportEnv) (cfg : Config) (cfg2 : SimpleConfig) (st : PState)
    (home : FPath) (serve1 serve2 : ServeOutcome) (pipOk : Bool) (pipMsg : String)
    (hc : env.chromadb = true) (hlog : validLogLevel cfg.logLevel = true)
    (hr1 : env.hasRunServer = true ∨ (env.chromaFastapi = true ∧ env.uvicorn = true))
    (hfa : env.fastapi = true) (hu : env.uvicorn = true) (hcf : env.chromaFastapi = true)
    (hhome : home = [] ∨ home ∈ st.fs)
    (hki : serve1 = .keyboardInterrupt ∨
      ((∃ m, serve1 = .raises m) ∧ serve2 = .keyboardInterrupt)) :
    ((script1Main env .keyboardInterrupt cfg st).exit = 0 ∧
     "\n🛑 Server stopped by user" ∈ (script1Main env .keyboardInterrupt cfg st).out) ∧
    ((script2Main env .keyboardInterrupt cfg2 st).exit = 0 ∧
     "\n🛑 Server stopped" ∈ (script2Main env .keyboardInterrupt cfg2 st).out) ∧
    ((script3Main env pipOk pipMsg serve1 serve2 home st).exit = 0 ∧
     "🛑 ChromaDB server stopped by user"
       ∈ (script3Main env pipOk pipMsg serve1 serve2 home st).out) := by
  have h1 : (script1Start env .keyboardInterrupt cfg st).res = .error .keyboardInterrupt := by
    rcases hr1 with h | ⟨hf2, hu2⟩
    · cases hd : cfg.dataDir <;> simp [script1Start, hlog, hc, h, hd]
    · cases hr : env.hasRunServer <;> cases hd : cfg.dataDir <;>
        simp [script1Start, hlog, hc, hf2, hu2, hr, hd]
  have h2 : (script2Start env .keyboardInterrupt cfg2 st).res = .error .keyboardInterrupt := by
    cases hd : cfg2.dataDir <;> simp [script2Start, hc, hfa, hu, hd]
  have h3 : (script3Start env serve1 serve2 home st).res = .error .keyboardInterrupt := by
    obtain ⟨fs1, hm1, hmem1, _⟩ := mkdir1_concat_some ".forest-data" hhome
    obtain ⟨fs2, hm2, _, _⟩ :=
      @mkdir1_concat_some fs1 (home ++ [".forest-data"]) ".chromadb" (Or.inr hmem1)
    simp only [List.append_assoc, List.singleton_append] at hm2
    rcases hki with h | ⟨⟨m, hm⟩, h2'⟩
    · simp [script3Start, hc, hu, hcf, hm1, hm2, h]
    · simp [script3Start, hc, hu, hcf, hm1, hm2, hm, h2']
  refine ⟨?_, ?_, ?_⟩
  · rcases hs : script1Start env .keyboardInterrupt cfg st with ⟨st1, out1, calls1, res1⟩
    rw [hs] at h1
    simp only at h1
    subst h1
    unfold script1Main
    rw [hs]
    simp
  · rcases hs : script2Start env .keyboardInterrupt cfg2 st with ⟨st1, out1, calls1, res1⟩
    rw [hs] at h2
    simp only at h2
    subst h2
    unfold script2Main
    rw [hs]
    simp
  · rcases hs : script3Start env serve1 serve2 home st with ⟨st1, out1, calls1, res1⟩
    rw [hs] at h3
    simp only at h3
    subst h3
    unfold script3Main
    rw [hs]
    have hinst : (installChromadb env pipOk pipMsg).2 = true := by
      simp [installChromadb, hc]
    rcases hi : installChromadb env pipOk pipMsg with ⟨outI, okI⟩
    rw [hi] at hinst
    simp only at hinst
    subst hinst
    simp

/-- C2 witness: Ctrl+C during serving in all three scripts, concretely. -/
theorem C2_keyboard_interrupt_clean_exit_witness :
    envFull.chromadb = true ∧
    validLogLevel script1Defaults.logLevel = true ∧
    (script1Main envFull .keyboardInterrupt script1Defaults st0).exit = 0 ∧
    (script3Main envFull true "" .keyboardInterrupt .returns ["home"] st0).exit = 0 := by
  refine ⟨rfl, by decide, ?_, ?_⟩
  · exact (C2_keyboard_interrupt_clean_exit envFull script1Defaults script2Defaults st0
      ["home"] .keyboardInterrupt .returns true "" rfl (by decide) (Or.inl rfl) rfl rfl rfl
      (Or.inr (by simp [st0])) (Or.inl rfl)).1.1
  · exact (C2_keyboard_interrupt_clean_exit envFull script1Defaults script2Defaults st0
      ["home"] .keyboardInterrupt .returns true "" rfl (by decide) (Or.inl rfl) rfl rfl rfl
      (Or.inr (by simp [st0])) (Or.inl rfl)).2.2.1

/-- C3 counterexample: a generic exception raised during server startup
in `chromadb-simple-server.py` is printed, but the launcher returns
`False` and the process exits 0 — not the claimed non-zero status. -/
theorem C3_counterexample :
    "❌ Server error: boom"
      ∈ (script2Main envFull (.raises "boom") script2Defaults st0).out ∧
    (script2Main envFull (.raises "boom") script2Defaults st0).exit = 0 := by
  constructor
  · simp [script2Main, script2Start, envFull, script2Defaults, st0]
  · rfl

/-- C3 (amended): a startup exception other than a missing-dependency failure
of the module load, or a keyboard interrupt, is always logged with a human-readable
message, but only `start-chromadb-server.py` exits non-zero (via
`sys.exit(1)`); in `chromadb-simple-server.py` and
`start-local-chromadb-server.py` the handler returns `False`, `main`
ignores it, and the process exits 0. -/
theorem C3_amended (env : ImportEnv) (cfg : Config) (cfg2 : SimpleConfig)
    (st : PState) (home : FPath) (m m2 : String) (pipOk : Bool) (pipMsg : String)
    (hc : env.chromadb = true) (hlog : validLogLevel cfg.logLevel = true)
    (hr1 : env.hasRunServer = true ∨ (env.chromaFastapi = true ∧ env.uvicorn = true))
    (hfa : env.fastapi = true) (hu : env.uvicorn = true) (hcf : env.chromaFastapi = true)
    (hhome : home = [] ∨ home ∈ st.fs) :
    ((script1Main env (.raises m) cfg st).exit = 1 ∧
     "❌ Server startup failed: " ++ m ∈ (script1Main env (.raises m) cfg st).out) ∧
    ((script2Main env (.raises m) cfg2 st).exit = 0 ∧
     "❌ Server error: " ++ m ∈ (script2Main env (.raises m) cfg2 st).out) ∧
    ((script3Main env pipOk pipMsg (.raises m) (.raises m2) home st).exit = 0 ∧
     "Failed to start ChromaDB server: " ++ m2
       ∈ (script3Main env pipOk pipMsg (.raises m) (.raises m2) home st).out) := by
  refine ⟨?_, ?_, ?_⟩
  · rcases hr1 with h | ⟨hf2, hu2⟩
    · cases hd : cfg.dataDir <;>
        simp [script1Main, script1Start, hlog, hc, h, hd]
    · cases hr : env.hasRunServer <;> cases hd : cfg.dataDir <;>
        simp [script1Main, script1Start, hlog, hc, hf2, hu2, hr, hd]
  · cases hd : cfg2.dataDir <;>
      simp [script2Main, script2Start, hc, hfa, hu, hd]
  · obtain ⟨fs1, hm1, hmem1, _⟩ := mkdir1_concat_some ".forest-data" hhome
    obtain ⟨fs2, hm2, _, _⟩ :=
      @mkdir1_concat_some fs1 (home ++ [".forest-data"]) ".chromadb" (Or.inr hmem1)
    simp only [List.append_assoc, List.singleton_append] at hm2
    simp [script3Main, script3Start, installChromadb, hc, hu, hcf, hm1, hm2]

/-- C3 witness: a concrete startup exception in every script. -/
theorem C3_amended_witness :
    envFull.chromadb = true ∧
    (script1Main envFull (.raises "port in use") script1Defaults st0).exit = 1 ∧
    (script3Main envFull true "" (.raises "port in use") (.raises "still failing")
      ["home"] st0).exit = 0 := by
  refine ⟨rfl, ?_, ?_⟩
  · exact (C3_amended envFull script1Defaults script2Defaults st0 ["home"]
      "port in use" "still failing" true "" rfl (by decide) (Or.inl rfl) rfl rfl rfl
      (Or.inr (by simp [st0]))).1.1
  · exact (C3_amended envFull script1Defaults script2Defaults st0 ["home"]
      "port in use" "still failing" true "" rfl (by decide) (Or.inl rfl) rfl rfl rfl
      (Or.inr (by simp [st0]))).2.2.1

/-- C6 counterexample: in `start-local-chromadb-server.py` the
`run_server` attribute is present (`envFull.hasRunServer = true`) yet the
script serves via uvicorn and the library FastAPI app instead, and when
that call raises it makes a second serve attempt — so the bootstrap
neither uses the primary API when available nor stops at a single
fallback path. -/
theorem C6_counterexample :
    envFull.hasRunServer = true ∧
    (script3Start envFull .returns .returns ["home"] st0).calls
      = [.uvicornApp "chromadb.server.fastapi.app" "0.0.0.0" 8000] ∧
    (script3Start envFull (.raises "bind error") .returns ["home"] st0).calls
      = [.uvicornApp "chromadb.server.fastapi.app" "0.0.0.0" 8000,
         .uvicornTarget "chromadb.server.fastapi:app" "localhost" 8000] := by
  refine ⟨rfl, ?_, ?_⟩ <;> simp [script3Start, envFull, st0, mkdir1]

/-- C6 (amended): `start-chromadb-server.py` serves through
`chromadb.run_server` exactly when the attribute is present, and
otherwise takes exactly one fallback path (uvicorn on the library's
FastAPI app); `start-local-chromadb-server.py` never consults
`run_server`: it always serves the library's FastAPI app with uvicorn
and, when that call raises, makes exactly one retry with the the
string-form target on localhost. -/
theorem C6_amended (env : ImportEnv) (serve serve2 : ServeOutcome) (cfg : Config)
    (st : PState) (home : FPath) (m : String)
    (hc : env.chromadb = true) (hlog : validLogLevel cfg.logLevel = true)
    (hu : env.uvicorn = true) (hcf : env.chromaFastapi = true)
    (hhome : home = [] ∨ home ∈ st.fs) :
    (env.hasRunServer = true →
      (script1Start env serve cfg st).calls = [.runServer cfg.host cfg.port]) ∧
    (env.hasRunServer = false →
      (script1Start env serve cfg st).calls
        = [.uvicornApp "chromadb.server.fastapi.app" cfg.host cfg.port]) ∧
    ((serve = .returns ∨ serve = .keyboardInterrupt) →
      (script3Start env serve serve2 home st).calls
        = [.uvicornApp "chromadb.server.fastapi.app" "0.0.0.0" 8000]) ∧
    (serve = .raises m →
      (script3Start env serve serve2 home st).calls
        = [.uvicornApp "chromadb.server.fastapi.app" "0.0.0.0" 8000,
           .uvicornTarget "chromadb.server.fastapi:app" "localhost" 8000]) := by
  obtain ⟨fs1, hm1, hmem1, _⟩ := mkdir1_concat_some ".forest-data" hhome
  obtain ⟨fs2, hm2, _, _⟩ :=
    @mkdir1_concat_some fs1 (home ++ [".forest-data"]) ".chromadb" (Or.inr hmem1)
  simp only [List.append_assoc, List.singleton_append] at hm2
  refine ⟨?_, ?_, ?_, ?_⟩
  · intro hr
    cases hd : cfg.dataDir <;> cases serve <;>
      simp [script1Start, hlog, hc, hr, hd]
  · intro hr
    cases hd : cfg.dataDir <;> cases serve <;>
      simp [script1Start, hlog, hc, hr, hu, hcf, hd]
  · rintro (h | h) <;> subst h <;>
      cases serve2 <;> simp [script3Start, hc, hu, hcf, hm1, hm2]
  · intro h
    subst h
    cases serve2 <;> simp [script3Start, hc, hu, hcf, hm1, hm2]

/-- C6 witness: concrete serve-call traces for both launchers. -/
theorem C6_amended_witness :
    envFull.chromadb = true ∧ envFull.hasRunServer = true ∧
    (script1Start envFull .returns script1Defaults st0).calls
      = [.runServer "0.0.0.0" 8000] := by
  refine ⟨rfl, rfl, ?_⟩
  have h := (C6_amended envFull .returns .returns script1Defaults st0 ["home"] "err"
    rfl (by decide) rfl rfl (Or.inr (by simp [st0]))).1 rfl
  simpa [script1Defaults] using h

/-- C7 counterexample: `chromadb-simple-server.py` defines no
`--log-level` flag at all, so the invocation `--log-level INFO` is an
argparse error rather than an accepted choice, and its parsed
configuration carries no log level — contradicting the claim that every
bootstrap parses log-level with default "INFO" and the four choices. -/
theorem C7_counterexample :
    script2ParseArgs ["--log-level", "INFO"] = none := by
  rfl

/-- C7 (amended): `start-chromadb-server.py` parses host/port/data-dir/
log-level with defaults `0.0.0.0`, 8000, `None`, `"INFO"`, and its
`--log-level` accepts exactly DEBUG, INFO, WARNING, ERROR;
`chromadb-simple-server.py` parses only host/port/data-dir with the same
defaults for those three and rejects `--log-level` entirely. -/
theorem C7_amended :
    script1ParseArgs [] = some script1Defaults ∧
    script1Defaults.host = "0.0.0.0" ∧ script1Defaults.port = 8000 ∧
    script1Defaults.dataDir = none ∧ script1Defaults.logLevel = "INFO" ∧
    logLevelChoices = ["DEBUG", "INFO", "WARNING", "ERROR"] ∧
    (∀ v, logLevelChoices.contains v = true →
      script1ParseArgs ["--log-level", v]
        = some { script1Defaults with logLevel := v }) ∧
    (∀ v, logLevelChoices.contains v = false →
      script1ParseArgs ["--log-level", v] = none) ∧
    script2ParseArgs [] = some script2Defaults ∧
    script2Defaults.host = "0.0.0.0" ∧ script2Defaults.port = 8000 ∧
    script2Defaults.dataDir = none ∧
    (∀ v, script2ParseArgs ["--log-level", v] = none) := by
  refine ⟨rfl, rfl, rfl, rfl, rfl, rfl, ?_, ?_, rfl, rfl, rfl, rfl, fun v => rfl⟩
  · intro v hv
    simp at hv
    simp [script1ParseArgs, script1ParseFrom, hv]
  · intro v hv
    simp at hv
    simp [script1ParseArgs, script1ParseFrom, hv]

/-- C7 witness: each accepted level parses, a rejected one fails. -/
theorem C7_amended_witness :
    logLevelChoices.contains "DEBUG" = true ∧
    script1ParseArgs ["--log-level", "DEBUG"]
      = some { script1Defaults with logLevel := "DEBUG" } ∧
    logLevelChoices.contains "TRACE" = false ∧
    script1ParseArgs ["--log-level", "TRACE"] = none := by
  refine ⟨by decide, ?_, by decide, ?_⟩
  · exact C7_amended.2.2.2.2.2.2.1 "DEBUG" (by decide)
  · exact C7_amended.2.2.2.2.2.2.2.1 "TRACE" (by decide)

/-- C8 counterexample: the simple server does expose exactly four routes,
but its heartbeat endpoint issues no external-library client call at all
— it answers from the local clock — refuting the claim that each of the
four endpoints forwards directly to a client call. -/
theorem C8_counterexample :
    simpleServerRoutes.length = 4 ∧
    (heartbeatHandler 1234567890).1 = [] ∧
    (heartbeatHandler 1234567890).2 = .ok (.heartbeat 1234567890) :=
  ⟨rfl, rfl, rfl⟩

/-- C8 (amended): the simple server exposes exactly four endpoints; the
list, create and get-collection handlers each issue exactly one client
call and return that call's result (mapped to name/id) with its errors
untranslated; the heartbeat handler issues no client call and returns the
local clock in nanoseconds. -/
theorem C8_amended (cs : ClientState) (newId : String) (reqName : Option String)
    (n : String) (nowNs : Int) :
    simpleServerRoutes.length = 4 ∧
    (heartbeatHandler nowNs).1 = [] ∧
    (heartbeatHandler nowNs).2 = .ok (.heartbeat nowNs) ∧
    (listCollectionsHandler cs).1 = [.listCollections] ∧
    (listCollectionsHandler cs).2 = .ok (.collectionList (clientList cs)) ∧
    (createCollectionHandler cs newId reqName).1 = [.createCollection reqName] ∧
    (createCollectionHandler cs newId reqName).2
      = (clientCreate cs reqName newId).map
          (fun p => (p.1, .collectionInfo p.2.name p.2.id)) ∧
    (getCollectionHandler cs n).1 = [.getCollection n] ∧
    (getCollectionHandler cs n).2
      = (clientGet cs n).map (fun c => .collectionInfo c.name c.id) := by
  refine ⟨rfl, rfl, rfl, rfl, rfl, rfl, ?_, rfl, ?_⟩
  · unfold createCollectionHandler
    cases h : clientCreate cs reqName newId with
    | error e => simp [h, Except.map]
    | ok p => cases p with | mk cs2 c => simp [h, Except.map]
  · unfold getCollectionHandler
    cases h : clientGet cs n with
    | error e => simp [h, Except.map]
    | ok c => simp [h, Except.map]

/-- A list is a suffix of any cons-extension of a list it is a suffix of. -/
theorem suffix_cons_of {α : Type} (a : α) {l t : List α} (h : l <:+ t) :
    l <:+ a :: t :=
  h.trans (List.suffix_cons a t)

/-- C9: the diagnostic script returns `False` exactly when `import
chromadb` itself fails; a failing import of an optional companion module
(the FastAPI server module or uvicorn) is logged as not available and the
function continues to its final `return True` without raising. -/
theorem C9_diag_optional_modules (e : DiagEnv) :
    ((test_chromadb e).2 = false ↔ e.chromadb = false) ∧
    (e.chromadb = true → e.chromaFastapi = false →
      (test_chromadb e).2 = true ∧
      "❌ FastAPI server not available: " ++ e.chromaFastapiErrMsg
        ∈ (test_chromadb e).1) ∧
    (e.chromadb = true → e.uvicorn = false →
      (test_chromadb e).2 = true ∧
      "❌ Uvicorn not available: " ++ e.uvicornErrMsg ∈ (test_chromadb e).1 ∧
      "💡 Install with: pip install uvicorn" ∈ (test_chromadb e).1) := by
  refine ⟨?_, ?_, ?_⟩
  · cases hc : e.chromadb <;> simp [test_chromadb, hc]
  · intro hc hf
    cases hu : e.uvicorn <;> cases hcl : e.clientOk <;> cases hl : e.listOk <;>
      simp [test_chromadb, hc, hf, hu, hcl, hl]
  · intro hc hu
    cases hf : e.chromaFastapi <;> cases hcl : e.clientOk <;> cases hl : e.listOk <;>
      simp [test_chromadb, hc, hf, hu, hcl, hl]

/-- C9 witness: a concrete environment where both optional modules are
missing but chromadb imports. -/
theorem C9_diag_optional_modules_witness :
    diagEnvNoOptional.chromadb = true ∧
    diagEnvNoOptional.chromaFastapi = false ∧
    diagEnvNoOptional.uvicorn = false ∧
    (test_chromadb diagEnvNoOptional).2 = true ∧
    "💡 Install with: pip install uvicorn" ∈ (test_chromadb diagEnvNoOptional).1 := by
  refine ⟨rfl, rfl, rfl, ?_, ?_⟩
  · exact ((C9_diag_optional_modules diagEnvNoOptional).2.1 rfl rfl).1
  · exact ((C9_diag_optional_modules diagEnvNoOptional).2.2 rfl rfl).2.2

/-- C10: whenever `import chromadb` succeeds, `test_chromadb` returns
`True` — client-creation or listing failures only change the log — and
its output ends with the attribute listing, which shows at most the first
10 non-underscore attributes and a single count line for the rest. -/
theorem C10_diag_true_and_attrs (e : DiagEnv) (hc : e.chromadb = true) :
    (test_chromadb e).2 = true ∧
    attrLines e.attrs <:+ (test_chromadb e).1 ∧
    ((e.attrs.filter (fun a => !a.startsWith "_")).length ≤ 10 →
      attrLines e.attrs
        = (e.attrs.filter (fun a => !a.startsWith "_")).map (fun a => "   - " ++ a)) ∧
    (10 < (e.attrs.filter (fun a => !a.startsWith "_")).length →
      attrLines e.attrs
        = ((e.attrs.filter (fun a => !a.startsWith "_")).take 10).map
            (fun a => "   - " ++ a) ++
          ["   ... and "
            ++ toString ((e.attrs.filter (fun a => !a.startsWith "_")).length - 10)
            ++ " more"]) := by
  refine ⟨by simp [test_chromadb, hc], ?_, ?_, ?_⟩
  · cases hf : e.chromaFastapi <;> cases hu : e.uvicorn <;>
      cases hcl : e.clientOk <;> cases hl : e.listOk <;>
      simp [test_chromadb, hc, hf, hu, hcl, hl] <;>
      (repeat apply suffix_cons_of) <;> exact List.suffix_refl _
  · intro hlen
    simp only [attrLines]
    rw [List.take_of_length_le hlen, if_neg (by omega)]
    simp
  · intro hlen
    simp only [attrLines]
    rw [if_pos (by omega)]

/-- C10 witness: thirteen non-underscore attributes and a failing client,
concretely. -/
theorem C10_diag_true_and_attrs_witness :
    diagEnvManyAttrs.chromadb = true ∧
    (test_chromadb diagEnvManyAttrs).2 = true ∧
    diagEnvManyAttrs.clientOk = false ∧
    attrLines diagEnvManyAttrs.attrs <:+ (test_chromadb diagEnvManyAttrs).1 := by
  refine ⟨rfl, ?_, rfl, ?_⟩
  · exact (C10_diag_true_and_attrs diagEnvManyAttrs rfl).1
  · exact (C10_diag_true_and_attrs diagEnvManyAttrs rfl).2.1
